import Mathlib

/-!
Verification of the traffic module's HTTP traffic generator against its
specification.

The repository ships the class declarations of `HttpClient` and `HttpServer`
(`src/model/http-client.h`, `src/model/http-server.h`) together with two
fully implemented helpers (`src/helper/histogram-plot-helper.h`,
`src/stats/application-stats-throughput-helper.cc`).  The member functions of
`HttpClient` and `HttpServer` are declared but their bodies are not part of
the staged sources, so their behaviour is modelled here from the
specification's description of each operation; the enumerations, fields and
member names come from the headers.
-/

namespace Traffic

namespace HttpClient

/-- The client states, translated from the enum `HttpClient::State_t` in
`src/model/http-client.h` (lines 45-54).  The enum defines seven values. -/
inductive State_t
  | NOT_STARTED
  | CONNECTING
  | EXPECTING_MAIN_OBJECT
  | PARSING_MAIN_OBJECT
  | EXPECTING_EMBEDDED_OBJECT
  | READING
  | STOPPED
  deriving DecidableEq, Repr, Fintype

/-- The list of all defined client states, in enum order. -/
def allStates : List State_t :=
  [State_t.NOT_STARTED, State_t.CONNECTING, State_t.EXPECTING_MAIN_OBJECT,
   State_t.PARSING_MAIN_OBJECT, State_t.EXPECTING_EMBEDDED_OBJECT,
   State_t.READING, State_t.STOPPED]

/-- The observable client instance state: the protocol state `m_state` and the
pending counter `m_embeddedObjectsToBeRequested` are fields of `HttpClient` in
the header (`uint32_t`, hence a natural number); `socketOpen` models whether
`m_socket` holds an open socket; `closeOps` counts socket-close operations
issued; the two `tx` fields count fires of the request-sent trace sources
`m_txMainObjectRequestTrace` and `m_txEmbeddedObjectRequestTrace`. -/
structure Client where
  m_state : State_t
  m_embeddedObjectsToBeRequested : Nat
  socketOpen : Bool
  closeOps : Nat
  txMainObjectRequests : Nat
  txEmbeddedObjectRequests : Nat
  deriving DecidableEq, Repr

/-- The external events a client instance reacts to: socket callbacks and
timer expiries, as listed in the header and the spec.  `receivedData` is a
data-arrival callback that completes the object currently being received;
`parsingTimerExpired` carries the random embedded-object-count draw made when
the parsing delay elapses. -/
inductive Event
  | startApplication
  | connectionSucceeded
  | connectionFailed
  | receivedData
  | parsingTimerExpired (numEmbedded : Nat)
  | readingTimerExpired
  | stopApplication
  deriving DecidableEq, Repr

/-- Modelled from the spec: sending a main-object request moves the client to
`EXPECTING_MAIN_OBJECT` and records a request-sent trace event (the body of
`HttpClient::RequestMainObject` is not in the staged sources). -/
def RequestMainObject (c : Client) : Client :=
  { c with m_state := State_t.EXPECTING_MAIN_OBJECT,
           txMainObjectRequests := c.txMainObjectRequests + 1 }

/-- Modelled from the spec: sending one embedded-object request records a
request-sent trace event and leaves the state unchanged (the body of
`HttpClient::RequestEmbeddedObject` is not in the staged sources). -/
def RequestEmbeddedObject (c : Client) : Client :=
  { c with txEmbeddedObjectRequests := c.txEmbeddedObjectRequests + 1 }

/-- Modelled from the spec: `HttpClient::StartApplication` opens the outbound
connection and moves to `CONNECTING`; it acts from the fresh state and from
`STOPPED` (an explicit restart). -/
def StartApplication (c : Client) : Client :=
  match c.m_state with
  | State_t.NOT_STARTED =>
      { c with m_state := State_t.CONNECTING, socketOpen := true }
  | State_t.STOPPED =>
      { c with m_state := State_t.CONNECTING, socketOpen := true }
  | _ => c

/-- Modelled from the spec: `HttpClient::StopApplication` cancels pending
timers, closes the socket (only when one is open, so a second stop issues no
duplicate close), and moves to `STOPPED`; it is valid from any state. -/
def StopApplication (c : Client) : Client :=
  { c with m_state := State_t.STOPPED,
           socketOpen := false,
           closeOps := c.closeOps + (if c.socketOpen then 1 else 0) }

/-- Modelled from the spec: `HttpClient::ConnectionSucceededCallback` reacts
only in `CONNECTING`: it moves to `EXPECTING_MAIN_OBJECT` and immediately
sends a main-object request; in any other state it is ignored. -/
def ConnectionSucceededCallback (c : Client) : Client :=
  match c.m_state with
  | State_t.CONNECTING => RequestMainObject c
  | _ => c

/-- Modelled from the spec: `HttpClient::ConnectionFailedCallback` reports the
failure; the core does not retry and makes no state transition. -/
def ConnectionFailedCallback (c : Client) : Client :=
  c

/-- Modelled from the spec: receiving the complete main object records a
receive trace event and moves the client to `PARSING_MAIN_OBJECT`
(`HttpClient::ReceiveMainObject`). -/
def ReceiveMainObject (c : Client) : Client :=
  { c with m_state := State_t.PARSING_MAIN_OBJECT }

/-- Modelled from the spec: on completing receipt of one embedded object the
client records a receive trace event and decrements the pending counter; if
more remain it sends the next request with the state unchanged, and if none
remain it moves to `READING` (`HttpClient::ReceiveEmbeddedObject`). -/
def ReceiveEmbeddedObject (c : Client) : Client :=
  let remaining := c.m_embeddedObjectsToBeRequested - 1
  if remaining = 0 then
    { c with m_state := State_t.READING, m_embeddedObjectsToBeRequested := 0 }
  else
    RequestEmbeddedObject { c with m_embeddedObjectsToBeRequested := remaining }

/-- Modelled from the spec: `HttpClient::ReceivedDataCallback` dispatches on
the current state; data arriving in a state that does not expect it is
ignored defensively. -/
def ReceivedDataCallback (c : Client) : Client :=
  match c.m_state with
  | State_t.EXPECTING_MAIN_OBJECT => ReceiveMainObject c
  | State_t.EXPECTING_EMBEDDED_OBJECT => ReceiveEmbeddedObject c
  | _ => c

/-- Modelled from the spec: `HttpClient::ParseMainObject` runs when the
parsing delay elapses in `PARSING_MAIN_OBJECT`: it sets the pending counter
to the drawn embedded-object count; when the draw is zero it skips straight
to `READING`, otherwise it moves to `EXPECTING_EMBEDDED_OBJECT` and sends the
first embedded-object request. -/
def ParseMainObject (c : Client) (numEmbedded : Nat) : Client :=
  match c.m_state with
  | State_t.PARSING_MAIN_OBJECT =>
      if numEmbedded = 0 then
        { c with m_state := State_t.READING, m_embeddedObjectsToBeRequested := 0 }
      else
        RequestEmbeddedObject
          { c with m_state := State_t.EXPECTING_EMBEDDED_OBJECT,
                   m_embeddedObjectsToBeRequested := numEmbedded }
  | _ => c

/-- Modelled from the spec: when the reading timer expires in `READING` the
client re-enters `EXPECTING_MAIN_OBJECT` and sends a fresh main-object
request, beginning a new page-load cycle. -/
def ReadingTimerExpiredCallback (c : Client) : Client :=
  match c.m_state with
  | State_t.READING => RequestMainObject c
  | _ => c

/-- One step of the client state machine: dispatch an external event to the
handler modelled from the spec. -/
def step (c : Client) (e : Event) : Client :=
  match e with
  | Event.startApplication => StartApplication c
  | Event.connectionSucceeded => ConnectionSucceededCallback c
  | Event.connectionFailed => ConnectionFailedCallback c
  | Event.receivedData => ReceivedDataCallback c
  | Event.parsingTimerExpired n => ParseMainObject c n
  | Event.readingTimerExpired => ReadingTimerExpiredCallback c
  | Event.stopApplication => StopApplication c

/-- A freshly constructed client: `NOT_STARTED`, no pending objects, no open
socket, no trace events fired. -/
def init : Client :=
  { m_state := State_t.NOT_STARTED,
    m_embeddedObjectsToBeRequested := 0,
    socketOpen := false,
    closeOps := 0,
    txMainObjectRequests := 0,
    txEmbeddedObjectRequests := 0 }

/-- The client resulting from delivering a sequence of events to a freshly
constructed client. -/
def run (es : List Event) : Client :=
  es.foldl step init

/-- A client state is reachable when some event sequence from a freshly
constructed client produces it. -/
def Reachable (c : Client) : Prop :=
  ∃ es : List Event, run es = c

/-- Whether the state machine expects an event in a given state: start and
stop are always handled, the other events only in the state whose handler
reacts to them.  Derived from the guards of the handlers above. -/
def expects : State_t → Event → Bool
  | _, Event.startApplication => true
  | _, Event.stopApplication => true
  | State_t.CONNECTING, Event.connectionSucceeded => true
  | State_t.CONNECTING, Event.connectionFailed => true
  | State_t.EXPECTING_MAIN_OBJECT, Event.receivedData => true
  | State_t.EXPECTING_EMBEDDED_OBJECT, Event.receivedData => true
  | State_t.PARSING_MAIN_OBJECT, Event.parsingTimerExpired _ => true
  | State_t.READING, Event.readingTimerExpired => true
  | _, _ => false

end HttpClient

namespace HttpServer

/-- The server states, translated from the enum `HttpServer::State_t` in
`src/model/http-server.h` (lines 46-51): there is no separate `STOPPED`
value, the stopped analog is `NOT_STARTED`. -/
inductive State_t
  | NOT_STARTED
  | WAITING_CONNECTION_REQUEST
  | CONNECTED
  deriving DecidableEq, Repr, Fintype

/-- The observable server instance state: `m_state` from the header,
`listeningOpen` models whether `m_initialSocket` holds an open listening
socket, `m_acceptedSockets` the number of entries of the accepted-socket list
of the header, and `closeOps` counts socket-close operations issued. -/
structure Server where
  m_state : State_t
  listeningOpen : Bool
  m_acceptedSockets : Nat
  closeOps : Nat
  deriving DecidableEq, Repr

/-- The external events a server instance reacts to. `connectionRequest`
carries the accept/reject decision of the accept filter; `peerClosed` is a
peer socket disconnecting. -/
inductive Event
  | startApplication
  | connectionRequest (accept : Bool)
  | newConnectionCreated
  | receivedData
  | peerClosed
  | stopApplication
  deriving DecidableEq, Repr

/-- Modelled from the spec: `HttpServer::StartApplication` opens the
listening socket and moves to `WAITING_CONNECTION_REQUEST`. -/
def StartApplication (s : Server) : Server :=
  match s.m_state with
  | State_t.NOT_STARTED =>
      { s with m_state := State_t.WAITING_CONNECTION_REQUEST, listeningOpen := true }
  | _ => s

/-- Modelled from the spec: `HttpServer::StopApplication` closes the
listening socket and all accepted peer sockets, discards outstanding unsent
data, and moves back to `NOT_STARTED`, the stopped analog. -/
def StopApplication (s : Server) : Server :=
  { s with m_state := State_t.NOT_STARTED,
           listeningOpen := false,
           m_acceptedSockets := 0,
           closeOps := s.closeOps + (if s.listeningOpen then 1 else 0)
                         + s.m_acceptedSockets }

/-- Modelled from the spec: `HttpServer::ConnectionRequestCallback` returns
the accept/reject decision and has no side effect beyond the decision. -/
def ConnectionRequestCallback (s : Server) (_accept : Bool) : Server :=
  s

/-- Modelled from the spec: `HttpServer::NewConnectionCreatedCallback`
registers the new peer socket and moves the bookkeeping state to
`CONNECTED` while the listening socket is active. -/
def NewConnectionCreatedCallback (s : Server) : Server :=
  match s.m_state with
  | State_t.WAITING_CONNECTION_REQUEST =>
      { s with m_state := State_t.CONNECTED,
               m_acceptedSockets := s.m_acceptedSockets + 1 }
  | State_t.CONNECTED =>
      { s with m_acceptedSockets := s.m_acceptedSockets + 1 }
  | _ => s

/-- Modelled from the spec: a request arriving on a peer socket is served
without a server-level state change; in a state that does not expect data the
callback is ignored defensively (`HttpServer::ReceivedDataCallback`). -/
def ReceivedDataCallback (s : Server) : Server :=
  s

/-- Modelled from the spec: a peer disconnecting closes and unregisters its
socket; when the last peer is gone the server returns to
`WAITING_CONNECTION_REQUEST`. -/
def PeerClosed (s : Server) : Server :=
  match s.m_state with
  | State_t.CONNECTED =>
      let remaining := s.m_acceptedSockets - 1
      { s with m_state := if remaining = 0 then State_t.WAITING_CONNECTION_REQUEST
                          else State_t.CONNECTED,
               m_acceptedSockets := remaining,
               closeOps := s.closeOps + 1 }
  | _ => s

/-- One step of the server state machine. -/
def step (s : Server) (e : Event) : Server :=
  match e with
  | Event.startApplication => StartApplication s
  | Event.connectionRequest accept => ConnectionRequestCallback s accept
  | Event.newConnectionCreated => NewConnectionCreatedCallback s
  | Event.receivedData => ReceivedDataCallback s
  | Event.peerClosed => PeerClosed s
  | Event.stopApplication => StopApplication s

/-- A freshly constructed server. -/
def init : Server :=
  { m_state := State_t.NOT_STARTED, listeningOpen := false,
    m_acceptedSockets := 0, closeOps := 0 }

/-- The state transitions the spec allows for the server: staying in place,
start (`NOT_STARTED` to `WAITING_CONNECTION_REQUEST`), connect
(`WAITING_CONNECTION_REQUEST` to `CONNECTED`), the return to
`WAITING_CONNECTION_REQUEST`, and stop (anything back to `NOT_STARTED`). -/
def allowedTransition (a b : State_t) : Bool :=
  a == b ||
  (a == State_t.NOT_STARTED && b == State_t.WAITING_CONNECTION_REQUEST) ||
  (a == State_t.WAITING_CONNECTION_REQUEST && b == State_t.CONNECTED) ||
  (a == State_t.CONNECTED && b == State_t.WAITING_CONNECTION_REQUEST) ||
  b == State_t.NOT_STARTED

/-- An operation the serving loop emits on the socket layer: a send of a
fragment of the object, or the fire of the whole-object-sent trace source
`m_txTrace`. -/
inductive ServeOp
  | send (bytes : Nat)
  | traceWholeObjectSent
  deriving DecidableEq, Repr

/-- Modelled from the spec: the serving loop sends an object of the given
size fragmented into units of at most `m_mtuSize` bytes, and fires the
whole-object-sent trace event once the final byte is queued.  `fuel` bounds
the recursion; each iteration sends at least one byte, so `objectSize` units
of fuel always suffice. -/
def serveLoop (fuel : Nat) (objectSize m_mtuSize : Nat) : List ServeOp :=
  match fuel with
  | 0 => []
  | fuel + 1 =>
    if objectSize ≤ m_mtuSize ∨ m_mtuSize = 0 then
      [ServeOp.send objectSize, ServeOp.traceWholeObjectSent]
    else
      ServeOp.send m_mtuSize :: serveLoop fuel (objectSize - m_mtuSize) m_mtuSize

/-- Modelled from the spec: `HttpServer::ServeMainObject` draws the object
size and emits the chunked sends followed by the whole-object-sent trace
event; here the drawn size and the MTU are the arguments. -/
def ServeMainObject (objectSize m_mtuSize : Nat) : List ServeOp :=
  serveLoop objectSize objectSize m_mtuSize

end HttpServer

namespace HistogramPlotHelper

/-- The state of the sampling loop of `HistogramPlotHelper::Plot`
(`src/helper/histogram-plot-helper.h`, lines 169-176): `calls` counts the
invocations of the `valueStream` callback so far, `sum` is the running sum
the loop accumulates, and `fileData` the histogram data points written to the
output file.  Samples are modelled as integers; `valueStream` is modelled as
the sequence of values it returns, indexed by invocation number. -/
structure LoopState where
  calls : Nat
  sum : ℤ
  fileData : List ℤ
  deriving DecidableEq, Repr

/-- One iteration of the sampling loop, translated from the body of
`HistogramPlotHelper::Plot`: `value = valueStream ()` is added to the running
sum, and then a second call `valueStream ()` produces the value written to
the file as a histogram data point. -/
def loopBody (valueStream : Nat → ℤ) (st : LoopState) : LoopState :=
  let value := valueStream st.calls
  let st := { st with calls := st.calls + 1, sum := st.sum + value }
  let written := valueStream st.calls
  { st with calls := st.calls + 1, fileData := st.fileData ++ [written] }

/-- The sampling loop of `HistogramPlotHelper::Plot` run for `numOfSamples`
iterations from the initial state (`value` uninitialised but unused, `sum`
starts at `0`, nothing written yet). -/
def plotLoop (valueStream : Nat → ℤ) : Nat → LoopState
  | 0 => { calls := 0, sum := 0, fileData := [] }
  | n + 1 => loopBody valueStream (plotLoop valueStream n)

end HistogramPlotHelper

namespace ApplicationStatsThroughputHelper

/-- The sender address a packet arrives with, as
`ApplicationStatsThroughputHelper::RxCallback` distinguishes it: either an
address for which `InetSocketAddress::IsMatchingType` holds, carrying the
IPv4 address (a number here) and port that `ConvertFrom` extracts, or any
other address type. -/
inductive RxAddress
  | inet (ipv4 : Nat) (port : Nat)
  | other
  deriving DecidableEq, Repr

/-- The state touched by `RxCallback`
(`src/stats/application-stats-throughput-helper.cc`, lines 257-298):
`m_identifierMap` maps sender IPv4 addresses to collector identifiers, and
`collectorSamples` logs, in order, each `(identifier, packet size)` sample
passed to a conversion collector via `TraceSinkUinteger32`; `warnings` counts
the discard warnings logged. -/
structure HelperState where
  m_identifierMap : List (Nat × Nat)
  collectorSamples : List (Nat × Nat)
  warnings : Nat
  deriving DecidableEq, Repr

/-- Lookup in the identifier map, as `m_identifierMap.find (ipv4Addr)`. -/
def findIdentifier (ipv4 : Nat) (m : List (Nat × Nat)) : Option Nat :=
  match m with
  | [] => none
  | (a, ident) :: rest => if a = ipv4 then some ident else findIdentifier ipv4 rest

/-- Translated from `ApplicationStatsThroughputHelper::RxCallback`: when the
sender address is a matching `InetSocketAddress` whose IPv4 address is in the
identifier map, the packet's size is passed to the collector with that
identifier; otherwise (wrong address type, or unknown IPv4 address) the
packet is discarded with a warning and no collector is touched. -/
def RxCallback (st : HelperState) (packetSize : Nat) (sender : RxAddress) :
    HelperState :=
  match sender with
  | RxAddress.inet ipv4 _port =>
    match findIdentifier ipv4 st.m_identifierMap with
    | none => { st with warnings := st.warnings + 1 }
    | some ident =>
      { st with collectorSamples := st.collectorSamples ++ [(ident, packetSize)] }
  | RxAddress.other => { st with warnings := st.warnings + 1 }

end ApplicationStatsThroughputHelper

namespace HttpClient

/-- The counter invariant of the client: in `EXPECTING_EMBEDDED_OBJECT` at
least one embedded object is still pending, and in `READING` the pending
counter has reached zero. -/
def counterInv (c : Client) : Prop :=
  (c.m_state = State_t.EXPECTING_EMBEDDED_OBJECT →
    1 ≤ c.m_embeddedObjectsToBeRequested) ∧
  (c.m_state = State_t.READING → c.m_embeddedObjectsToBeRequested = 0)

lemma counterInv_init : counterInv init := by
  constructor <;> intro h <;> simp [init] at h ⊢

lemma counterInv_step (c : Client) (e : Event) (h : counterInv c) :
    counterInv (step c e) := by
  obtain ⟨st, cnt, so, co, tm, te⟩ := c
  obtain ⟨h1, h2⟩ := h
  cases st <;> cases e <;>
    simp_all [counterInv, step, StartApplication, StopApplication,
      ConnectionSucceededCallback, ConnectionFailedCallback,
      ReceivedDataCallback, ReceiveMainObject, ReceiveEmbeddedObject,
      RequestMainObject, RequestEmbeddedObject, ParseMainObject,
      ReadingTimerExpiredCallback] <;>
    split_ifs <;> simp_all <;> omega

lemma counterInv_foldl (c : Client) (h : counterInv c) (es : List Event) :
    counterInv (es.foldl step c) := by
  induction es generalizing c with
  | nil => exact h
  | cons e es ih => exact ih _ (counterInv_step c e h)

lemma counterInv_reachable (c : Client) (h : Reachable c) : counterInv c := by
  obtain ⟨es, rfl⟩ := h
  exact counterInv_foldl init counterInv_init es

/-- Claim C1, counterexample: the claim speaks of "the six defined states",
but the enum `HttpClient::State_t` of the header defines seven states, and a
freshly constructed client reaches seven pairwise distinct states under
concrete event sequences. -/
theorem client_six_states_counterexample :
    Fintype.card State_t = 7 ∧
    [(run []).m_state,
     (run [Event.startApplication]).m_state,
     (run [Event.startApplication, Event.connectionSucceeded]).m_state,
     (run [Event.startApplication, Event.connectionSucceeded,
           Event.receivedData]).m_state,
     (run [Event.startApplication, Event.connectionSucceeded,
           Event.receivedData, Event.parsingTimerExpired 2]).m_state,
     (run [Event.startApplication, Event.connectionSucceeded,
           Event.receivedData, Event.parsingTimerExpired 0]).m_state,
     (run [Event.stopApplication]).m_state].Nodup := by
  decide

/-- Claim C1 (amended): for every sequence of client events the client's
state is always exactly one of the seven defined states; `STOPPED` is
reachable from every state by one stop event and, once entered, is terminal
under every event other than an explicit restart. -/
theorem client_seven_states_stopped_terminal (c : Client) (e : Event)
    (he : e ≠ Event.startApplication) :
    Fintype.card State_t = 7 ∧
    c.m_state ∈ allStates ∧
    (step c Event.stopApplication).m_state = State_t.STOPPED ∧
    (c.m_state = State_t.STOPPED → (step c e).m_state = State_t.STOPPED) := by
  obtain ⟨st, cnt, so, co, tm, te⟩ := c
  refine ⟨by decide, ?_, rfl, ?_⟩
  · cases st <;> simp [allStates]
  · intro hs
    cases st
    case STOPPED => cases e <;> first | rfl | exact absurd rfl he
    all_goals simp at hs

theorem client_seven_states_stopped_terminal_witness :
    Fintype.card State_t = 7 ∧
    (run [Event.stopApplication]).m_state ∈ allStates ∧
    (step (run [Event.stopApplication]) Event.stopApplication).m_state =
      State_t.STOPPED ∧
    ((run [Event.stopApplication]).m_state = State_t.STOPPED →
      (step (run [Event.stopApplication]) Event.receivedData).m_state =
        State_t.STOPPED) :=
  client_seven_states_stopped_terminal (run [Event.stopApplication])
    Event.receivedData (by decide)

/-- Claim C2: the pending counter is non-negative in every reachable state;
in `EXPECTING_EMBEDDED_OBJECT` it is still positive and in `READING` it is
zero; any transition into `READING` leaves the counter at zero and starts
from `EXPECTING_EMBEDDED_OBJECT` or `PARSING_MAIN_OBJECT`; and no receipt of
an embedded object enters `READING` while more than one request is still
pending. -/
theorem client_counter_reaches_zero_at_reading (c : Client) (h : Reachable c)
    (e : Event) :
    0 ≤ c.m_embeddedObjectsToBeRequested ∧
    (c.m_state = State_t.EXPECTING_EMBEDDED_OBJECT →
      1 ≤ c.m_embeddedObjectsToBeRequested) ∧
    (c.m_state = State_t.READING → c.m_embeddedObjectsToBeRequested = 0) ∧
    (c.m_state ≠ State_t.READING → (step c e).m_state = State_t.READING →
      (step c e).m_embeddedObjectsToBeRequested = 0 ∧
      (c.m_state = State_t.EXPECTING_EMBEDDED_OBJECT ∨
       c.m_state = State_t.PARSING_MAIN_OBJECT)) ∧
    (c.m_state = State_t.EXPECTING_EMBEDDED_OBJECT →
      1 < c.m_embeddedObjectsToBeRequested →
      (step c Event.receivedData).m_state ≠ State_t.READING) := by
  obtain ⟨h1, h2⟩ := counterInv_reachable c h
  obtain ⟨st, cnt, so, co, tm, te⟩ := c
  refine ⟨Nat.zero_le _, h1, h2, ?_, ?_⟩
  · intro hne hr
    cases st <;> cases e <;>
      simp_all [step, StartApplication, StopApplication,
        ConnectionSucceededCallback, ConnectionFailedCallback,
        ReceivedDataCallback, ReceiveMainObject, ReceiveEmbeddedObject,
        RequestMainObject, RequestEmbeddedObject, ParseMainObject,
        ReadingTimerExpiredCallback] <;>
      split_ifs <;> simp_all
  · intro hst hlt
    cases st <;> simp_all [step, ReceivedDataCallback, ReceiveEmbeddedObject,
      RequestEmbeddedObject]
    split_ifs with hz
    · omega
    · simp

theorem client_counter_reaches_zero_at_reading_witness :
    0 ≤ (run [Event.startApplication, Event.connectionSucceeded,
              Event.receivedData,
              Event.parsingTimerExpired 2]).m_embeddedObjectsToBeRequested ∧
    ((run [Event.startApplication, Event.connectionSucceeded,
           Event.receivedData, Event.parsingTimerExpired 2]).m_state =
        State_t.EXPECTING_EMBEDDED_OBJECT →
      1 ≤ (run [Event.startApplication, Event.connectionSucceeded,
                Event.receivedData,
                Event.parsingTimerExpired 2]).m_embeddedObjectsToBeRequested) ∧
    ((run [Event.startApplication, Event.connectionSucceeded,
           Event.receivedData, Event.parsingTimerExpired 2]).m_state =
        State_t.READING →
      (run [Event.startApplication, Event.connectionSucceeded,
            Event.receivedData,
            Event.parsingTimerExpired 2]).m_embeddedObjectsToBeRequested = 0) ∧
    ((run [Event.startApplication, Event.connectionSucceeded,
           Event.receivedData, Event.parsingTimerExpired 2]).m_state ≠
        State_t.READING →
      (step (run [Event.startApplication, Event.connectionSucceeded,
                  Event.receivedData, Event.parsingTimerExpired 2])
          Event.receivedData).m_state = State_t.READING →
      (step (run [Event.startApplication, Event.connectionSucceeded,
                  Event.receivedData, Event.parsingTimerExpired 2])
          Event.receivedData).m_embeddedObjectsToBeRequested = 0 ∧
      ((run [Event.startApplication, Event.connectionSucceeded,
             Event.receivedData, Event.parsingTimerExpired 2]).m_state =
          State_t.EXPECTING_EMBEDDED_OBJECT ∨
       (run [Event.startApplication, Event.connectionSucceeded,
             Event.receivedData, Event.parsingTimerExpired 2]).m_state =
          State_t.PARSING_MAIN_OBJECT)) ∧
    ((run [Event.startApplication, Event.connectionSucceeded,
           Event.receivedData, Event.parsingTimerExpired 2]).m_state =
        State_t.EXPECTING_EMBEDDED_OBJECT →
      1 < (run [Event.startApplication, Event.connectionSucceeded,
                Event.receivedData,
                Event.parsingTimerExpired 2]).m_embeddedObjectsToBeRequested →
      (step (run [Event.startApplication, Event.connectionSucceeded,
                  Event.receivedData, Event.parsingTimerExpired 2])
          Event.receivedData).m_state ≠ State_t.READING) :=
  client_counter_reaches_zero_at_reading
    (run [Event.startApplication, Event.connectionSucceeded,
          Event.receivedData, Event.parsingTimerExpired 2])
    ⟨[Event.startApplication, Event.connectionSucceeded,
      Event.receivedData, Event.parsingTimerExpired 2], rfl⟩
    Event.receivedData

/-- Claim C5: stopping twice from any client state yields the same terminal
state `STOPPED` as stopping once, the whole instance state is unchanged by
the second stop, and the second stop issues no additional socket-close
operation. -/
theorem client_stop_idempotent (c : Client) :
    step (step c Event.stopApplication) Event.stopApplication =
      step c Event.stopApplication ∧
    (step (step c Event.stopApplication) Event.stopApplication).closeOps =
      (step c Event.stopApplication).closeOps ∧
    (step c Event.stopApplication).m_state = State_t.STOPPED := by
  refine ⟨?_, ?_, rfl⟩ <;> simp [step, StopApplication]

/-- Claim C6: with the embedded-object count draw fixed at 3, the client
sends exactly 3 embedded-object requests, one at a time: one when parsing
completes and one on each of the first two completed receipts, staying in
`EXPECTING_EMBEDDED_OBJECT` in between, and it moves to `READING` with the
counter at zero and no further request after the third object is fully
received. -/
theorem client_three_embedded_objects :
    (run [Event.startApplication, Event.connectionSucceeded,
          Event.receivedData]).m_state = State_t.PARSING_MAIN_OBJECT ∧
    (run [Event.startApplication, Event.connectionSucceeded,
          Event.receivedData]).txEmbeddedObjectRequests = 0 ∧
    (run [Event.startApplication, Event.connectionSucceeded,
          Event.receivedData, Event.parsingTimerExpired 3]).m_state =
      State_t.EXPECTING_EMBEDDED_OBJECT ∧
    (run [Event.startApplication, Event.connectionSucceeded,
          Event.receivedData,
          Event.parsingTimerExpired 3]).txEmbeddedObjectRequests = 1 ∧
    (run [Event.startApplication, Event.connectionSucceeded,
          Event.receivedData,
          Event.parsingTimerExpired 3]).m_embeddedObjectsToBeRequested = 3 ∧
    (run [Event.startApplication, Event.connectionSucceeded,
          Event.receivedData, Event.parsingTimerExpired 3,
          Event.receivedData]).m_state =
      State_t.EXPECTING_EMBEDDED_OBJECT ∧
    (run [Event.startApplication, Event.connectionSucceeded,
          Event.receivedData, Event.parsingTimerExpired 3,
          Event.receivedData]).txEmbeddedObjectRequests = 2 ∧
    (run [Event.startApplication, Event.connectionSucceeded,
          Event.receivedData, Event.parsingTimerExpired 3,
          Event.receivedData]).m_embeddedObjectsToBeRequested = 2 ∧
    (run [Event.startApplication, Event.connectionSucceeded,
          Event.receivedData, Event.parsingTimerExpired 3,
          Event.receivedData, Event.receivedData]).m_state =
      State_t.EXPECTING_EMBEDDED_OBJECT ∧
    (run [Event.startApplication, Event.connectionSucceeded,
          Event.receivedData, Event.parsingTimerExpired 3,
          Event.receivedData, Event.receivedData]).txEmbeddedObjectRequests = 3 ∧
    (run [Event.startApplication, Event.connectionSucceeded,
          Event.receivedData, Event.parsingTimerExpired 3,
          Event.receivedData, Event.receivedData]).m_embeddedObjectsToBeRequested
      = 1 ∧
    (run [Event.startApplication, Event.connectionSucceeded,
          Event.receivedData, Event.parsingTimerExpired 3,
          Event.receivedData, Event.receivedData, Event.receivedData]).m_state =
      State_t.READING ∧
    (run [Event.startApplication, Event.connectionSucceeded,
          Event.receivedData, Event.parsingTimerExpired 3,
          Event.receivedData, Event.receivedData,
          Event.receivedData]).txEmbeddedObjectRequests = 3 ∧
    (run [Event.startApplication, Event.connectionSucceeded,
          Event.receivedData, Event.parsingTimerExpired 3,
          Event.receivedData, Event.receivedData,
          Event.receivedData]).m_embeddedObjectsToBeRequested = 0 := by
  decide

/-- Claim C7: with the embedded-object count draw fixed at 0, the client in
`PARSING_MAIN_OBJECT` moves directly to `READING` when the parsing delay
elapses, sends zero embedded-object requests, and does not enter
`EXPECTING_EMBEDDED_OBJECT` in that cycle. -/
theorem client_zero_embedded_objects :
    (run [Event.startApplication, Event.connectionSucceeded,
          Event.receivedData]).m_state = State_t.PARSING_MAIN_OBJECT ∧
    (run [Event.startApplication, Event.connectionSucceeded,
          Event.receivedData, Event.parsingTimerExpired 0]).m_state =
      State_t.READING ∧
    (run [Event.startApplication, Event.connectionSucceeded,
          Event.receivedData,
          Event.parsingTimerExpired 0]).txEmbeddedObjectRequests = 0 ∧
    (run [Event.startApplication, Event.connectionSucceeded,
          Event.receivedData, Event.parsingTimerExpired 0]).m_state ≠
      State_t.EXPECTING_EMBEDDED_OBJECT := by
  decide

end HttpClient

namespace HttpServer

/-- Claim C3: serving an object of configured size 5000 bytes over a
transport with an MTU of 1500 bytes emits exactly the four send operations
1500, 1500, 1500 and 500 in that order, followed by a single whole-object-sent
trace event after the last fragment is queued. -/
theorem serve_5000_mtu_1500 :
    ServeMainObject 5000 1500 =
      [ServeOp.send 1500, ServeOp.send 1500, ServeOp.send 1500,
       ServeOp.send 500, ServeOp.traceWholeObjectSent] ∧
    ((ServeMainObject 5000 1500).filter
        (fun op => op == ServeOp.traceWholeObjectSent)).length = 1 ∧
    ((ServeMainObject 5000 1500).filter
        (fun op => op != ServeOp.traceWholeObjectSent)).length = 4 := by
  decide

/-- Claim C4: the server state takes only the three defined values, every
step follows an allowed edge of the spec's transition diagram
(`NOT_STARTED` to `WAITING_CONNECTION_REQUEST` to `CONNECTED`, the return to
`WAITING_CONNECTION_REQUEST`, and stop back to `NOT_STARTED`), and stopping
closes the listening socket and all accepted peer sockets and moves the
server to the stopped analog `NOT_STARTED`. -/
theorem server_transitions_and_stop (s : Server) (e : Event) :
    Fintype.card State_t = 3 ∧
    allowedTransition s.m_state (step s e).m_state = true ∧
    (step s Event.stopApplication).m_state = State_t.NOT_STARTED ∧
    (step s Event.stopApplication).listeningOpen = false ∧
    (step s Event.stopApplication).m_acceptedSockets = 0 ∧
    (step s Event.stopApplication).closeOps =
      s.closeOps + (if s.listeningOpen then 1 else 0) + s.m_acceptedSockets := by
  obtain ⟨st, lo, acc, co⟩ := s
  refine ⟨by decide, ?_, rfl, rfl, rfl, rfl⟩
  cases st <;> cases e <;>
    simp [step, StartApplication, StopApplication, ConnectionRequestCallback,
      NewConnectionCreatedCallback, ReceivedDataCallback, PeerClosed,
      allowedTransition] <;>
    (try split_ifs) <;> simp_all [allowedTransition]

end HttpServer

/-- Whether the client or server state machine expects a given event in a
given state, on the server side: start, stop and the accept filter are
always handled; a new connection only while listening; data and peer
disconnects only while connected. -/
def HttpServer.expects : HttpServer.State_t → HttpServer.Event → Bool
  | _, HttpServer.Event.startApplication => true
  | _, HttpServer.Event.stopApplication => true
  | HttpServer.State_t.WAITING_CONNECTION_REQUEST,
      HttpServer.Event.connectionRequest _ => true
  | HttpServer.State_t.CONNECTED, HttpServer.Event.connectionRequest _ => true
  | HttpServer.State_t.WAITING_CONNECTION_REQUEST,
      HttpServer.Event.newConnectionCreated => true
  | HttpServer.State_t.CONNECTED, HttpServer.Event.newConnectionCreated => true
  | HttpServer.State_t.CONNECTED, HttpServer.Event.receivedData => true
  | HttpServer.State_t.CONNECTED, HttpServer.Event.peerClosed => true
  | _, _ => false

/-- Claim C8: a socket event arriving while the state machine is not in a
state expecting it (for example data arrival after the client stopped, or
data on a server that is not running) leaves the instance state unchanged:
the handler is a no-op on the protocol state, never a fatal error. -/
theorem unexpected_events_are_noops
    (c : HttpClient.Client) (e : HttpClient.Event)
    (hc : HttpClient.expects c.m_state e = false)
    (s : HttpServer.Server) (f : HttpServer.Event)
    (hs : HttpServer.expects s.m_state f = false) :
    HttpClient.step c e = c ∧ HttpServer.step s f = s := by
  constructor
  · obtain ⟨st, cnt, so, co, tm, te⟩ := c
    cases st <;> cases e <;>
      simp_all [HttpClient.expects, HttpClient.step, HttpClient.StartApplication,
        HttpClient.StopApplication, HttpClient.ConnectionSucceededCallback,
        HttpClient.ConnectionFailedCallback, HttpClient.ReceivedDataCallback,
        HttpClient.ReceiveMainObject, HttpClient.ReceiveEmbeddedObject,
        HttpClient.RequestMainObject, HttpClient.RequestEmbeddedObject,
        HttpClient.ParseMainObject, HttpClient.ReadingTimerExpiredCallback]
  · obtain ⟨st, lo, acc, co⟩ := s
    cases st <;> cases f <;>
      simp_all [HttpServer.expects, HttpServer.step, HttpServer.StartApplication,
        HttpServer.StopApplication, HttpServer.ConnectionRequestCallback,
        HttpServer.NewConnectionCreatedCallback, HttpServer.ReceivedDataCallback,
        HttpServer.PeerClosed]

theorem unexpected_events_are_noops_witness :
    HttpClient.step (HttpClient.run [HttpClient.Event.stopApplication])
        HttpClient.Event.receivedData =
      HttpClient.run [HttpClient.Event.stopApplication] ∧
    HttpServer.step HttpServer.init HttpServer.Event.receivedData =
      HttpServer.init :=
  unexpected_events_are_noops
    (HttpClient.run [HttpClient.Event.stopApplication])
    HttpClient.Event.receivedData (by decide)
    HttpServer.init HttpServer.Event.receivedData (by decide)

namespace HistogramPlotHelper

lemma plotLoop_calls (vs : Nat → ℤ) (n : Nat) :
    (plotLoop vs n).calls = 2 * n := by
  induction n with
  | zero => rfl
  | succ n ih => simp [plotLoop, loopBody, ih]; omega

lemma plotLoop_fileData (vs : Nat → ℤ) (n : Nat) :
    (plotLoop vs n).fileData = (List.range n).map (fun i => vs (2 * i + 1)) := by
  induction n with
  | zero => rfl
  | succ n ih =>
    simp [plotLoop, loopBody, ih, plotLoop_calls, List.range_succ]

lemma plotLoop_sum (vs : Nat → ℤ) (n : Nat) :
    (plotLoop vs n).sum = ((List.range n).map (fun i => vs (2 * i))).sum := by
  induction n with
  | zero => rfl
  | succ n ih =>
    simp [plotLoop, loopBody, ih, plotLoop_calls, List.range_succ]

/-- Claim C9: running the sampling loop of `HistogramPlotHelper::Plot` for
`numOfSamples` iterations invokes the `valueStream` callback exactly
`2 * numOfSamples` times; the data points written to the file are the draws
at the odd invocation indices while the running sum (whose mean is printed
as the "actual mean") collects the draws at the even invocation indices, so
the plotted samples and the averaged draws are disjoint. -/
theorem plot_draws_twice_per_sample (valueStream : Nat → ℤ) (numOfSamples : Nat)
    (_h : 0 < numOfSamples) :
    (plotLoop valueStream numOfSamples).calls = 2 * numOfSamples ∧
    (plotLoop valueStream numOfSamples).fileData =
      (List.range numOfSamples).map (fun i => valueStream (2 * i + 1)) ∧
    (plotLoop valueStream numOfSamples).sum =
      ((List.range numOfSamples).map (fun i => valueStream (2 * i))).sum ∧
    (∀ i, i < numOfSamples → ∀ j, j < numOfSamples → 2 * i ≠ 2 * j + 1) := by
  refine ⟨plotLoop_calls valueStream numOfSamples,
          plotLoop_fileData valueStream numOfSamples,
          plotLoop_sum valueStream numOfSamples, ?_⟩
  intro i _ j _
  omega

theorem plot_draws_twice_per_sample_witness :
    (plotLoop (fun i => (i : ℤ)) 2).calls = 2 * 2 ∧
    (plotLoop (fun i => (i : ℤ)) 2).fileData =
      (List.range 2).map (fun i => ((2 * i + 1 : Nat) : ℤ)) ∧
    (plotLoop (fun i => (i : ℤ)) 2).sum =
      ((List.range 2).map (fun i => ((2 * i : Nat) : ℤ))).sum ∧
    (∀ i, i < 2 → ∀ j, j < 2 → 2 * i ≠ 2 * j + 1) :=
  plot_draws_twice_per_sample (fun i => (i : ℤ)) 2 (by decide)

end HistogramPlotHelper

namespace ApplicationStatsThroughputHelper

/-- Claim C10: `RxCallback` forwards the packet's size to the collector of an
identifier exactly when the sender address is a matching `InetSocketAddress`
whose IPv4 address is in the identifier map; in every other case it only logs
a warning and changes no collector state. -/
theorem rx_callback_filters_by_sender (st : HelperState) (packetSize : Nat) :
    (∀ ipv4 port ident,
        findIdentifier ipv4 st.m_identifierMap = some ident →
        RxCallback st packetSize (RxAddress.inet ipv4 port) =
          { st with collectorSamples :=
              st.collectorSamples ++ [(ident, packetSize)] }) ∧
    (∀ ipv4 port,
        findIdentifier ipv4 st.m_identifierMap = none →
        RxCallback st packetSize (RxAddress.inet ipv4 port) =
          { st with warnings := st.warnings + 1 }) ∧
    (RxCallback st packetSize RxAddress.other =
      { st with warnings := st.warnings + 1 }) ∧
    (∀ sender : RxAddress,
        (RxCallback st packetSize sender).collectorSamples ≠
          st.collectorSamples →
        ∃ ipv4 port ident, sender = RxAddress.inet ipv4 port ∧
          findIdentifier ipv4 st.m_identifierMap = some ident) := by
  refine ⟨?_, ?_, rfl, ?_⟩
  · intro ipv4 port ident hf
    simp [RxCallback, hf]
  · intro ipv4 port hf
    simp [RxCallback, hf]
  · intro sender hne
    cases sender with
    | other => simp [RxCallback] at hne
    | inet ipv4 port =>
      cases hf : findIdentifier ipv4 st.m_identifierMap with
      | none => simp [RxCallback, hf] at hne
      | some ident => exact ⟨ipv4, port, ident, rfl, hf⟩

end ApplicationStatsThroughputHelper

end Traffic
